import Mathlib

/-!
Verification development for a multimodal retrieval-augmented-generation
pipeline (`multimodal_rag.py`): PDF content units are summarized, grouped by
page, serialized into chunks, embedded and indexed in a vector store, and
retrieved to build generation prompts.  The Python methods of the
`MultimodalRag` class are shallowly embedded as pure Lean functions; the
filesystem, the vector store and the external services are explicit state or
oracle parameters.
-/

namespace MultimodalRag

/-- A parsed content unit: the dictionary form of an `unstructured` element as
used by `replace_image_with_summary` / `group_data_by_page` / `create_chunks`
(`type`, `text`, `metadata.page_number`, `metadata.image_path`, and the
`image_summary` key attached to images).  Non-image units carry `""` in the
image fields. -/
structure ContentUnit where
  type : String
  text : String
  pageNumber : Nat
  imagePath : String
  imageSummary : String
  deriving Repr, DecidableEq

/-- The loop body of `group_data_by_page`: `prev` are the finished groups,
`cur` is `data_by_page[-1]` (the group currently being filled), `c` is
`cur_page_number`.  Footers are skipped; a unit whose `page_number` differs
from `cur_page_number` increments the counter and starts a new group. -/
def groupAux (prev : List (List ContentUnit)) (cur : List ContentUnit)
    (c : Nat) : List ContentUnit → List (List ContentUnit)
  | [] => prev ++ [cur]
  | d :: ds =>
    if d.type = "Footer" then groupAux prev cur c ds
    else if d.pageNumber ≠ c then groupAux (prev ++ [cur]) [d] (c + 1) ds
    else groupAux prev (cur ++ [d]) c ds

/-- `group_data_by_page`: starts from `data_by_page = [[]]` and
`cur_page_number = 1`. -/
def groupDataByPage (l : List ContentUnit) : List (List ContentUnit) :=
  groupAux [] [] 1 l

/-- The non-footer units of a stream, in order. -/
def nonFooters (l : List ContentUnit) : List ContentUnit :=
  l.filter (fun d => d.type ≠ "Footer")

/-- The spec's grouping rule, written from its words: iterate units in order,
drop Footer units, and start a new group exactly when a unit's page number
differs from the current group's page number (the current page starts at 1
with an empty current group). -/
def splitAux (cur : List ContentUnit) (p : Nat) :
    List ContentUnit → List (List ContentUnit)
  | [] => [cur]
  | d :: ds =>
    if d.type = "Footer" then splitAux cur p ds
    else if d.pageNumber = p then splitAux (cur ++ [d]) p ds
    else cur :: splitAux [d] d.pageNumber ds

/-- Spec-worded grouping entry point (see `splitAux`). -/
def splitOnPageChange (l : List ContentUnit) : List (List ContentUnit) :=
  splitAux [] 1 l

/-- `pagesRunFrom c l = true` when the page numbers of the non-footer units of
`l` continue contiguously from `c`: each next page equals the previous one or
its successor. -/
def pagesRunFrom (c : Nat) : List ContentUnit → Bool
  | [] => true
  | d :: ds =>
    if d.type = "Footer" then pagesRunFrom c ds
    else (d.pageNumber == c || d.pageNumber == c + 1) && pagesRunFrom d.pageNumber ds

/-- Python's `str.join`: `pyJoin sep l` interleaves `sep` between the elements
of `l` (empty string on the empty list). -/
def pyJoin (sep : String) : List String → String
  | [] => ""
  | [s] => s
  | s :: r :: rest => s ++ sep ++ pyJoin sep (r :: rest)

/-- The segment of a `/`-separated path after its last separator (`cur` is the
segment read so far). -/
def segAux (cur : List Char) : List Char → List Char
  | [] => cur
  | c :: cs => if c = '/' then segAux [] cs else segAux (cur ++ [c]) cs

/-- `os.path.basename` on `/`-separated paths. -/
def basename (p : String) : String := String.mk (segAux [] p.data)

/-- Python's `str.replace` over character lists: replace every non-overlapping
occurrence of `pat`, scanning left to right (`skip` counts pattern characters
still to swallow after a match). -/
def replaceGo (pat repl : List Char) (skip : Nat) : List Char → List Char
  | [] => []
  | c :: cs =>
    match skip with
    | n + 1 => replaceGo pat repl n cs
    | 0 =>
      if pat.isPrefixOf (c :: cs) then
        repl ++ replaceGo pat repl (pat.length - 1) cs
      else c :: replaceGo pat repl 0 cs

/-- Python's `str.replace(pat, repl)` for a non-empty pattern (the patterns the
code uses — `os.getcwd()` and `".pdf"` — are never empty; an empty pattern is
modelled as the identity). -/
def pyReplace (s pat repl : String) : String :=
  if pat.data = [] then s else String.mk (replaceGo pat.data repl.data 0 s.data)

/-- The dedicated folder of a document:
`os.path.join("uploaded_pdfs", pdf_name.replace(".pdf", ""))`. -/
def pdfFolderOf (pdfPath : String) : String :=
  "uploaded_pdfs/" ++ pyReplace (basename pdfPath) ".pdf" ""

/-- The `figures` subfolder holding the extracted image assets. -/
def figuresFolderOf (pdfPath : String) : String :=
  pdfFolderOf pdfPath ++ "/figures"

/-- The copy of the PDF inside its dedicated folder (`pdf_dest`). -/
def pdfDestOf (pdfPath : String) : String :=
  pdfFolderOf pdfPath ++ "/" ++ basename pdfPath

/-- `replace_image_with_summary`: every unit is kept in order; units of type
`"Image"` get `image_summary` set by calling the summarizer on their
`image_path`. -/
def replaceImageWithSummary (summarise : String → String)
    (parsedPdf : List ContentUnit) : List ContentUnit :=
  parsedPdf.map (fun u =>
    if u.type = "Image" then { u with imageSummary := summarise u.imagePath } else u)

/-- The image-relocation loop of `process_pdf`: every image's `image_path` is
rewritten to `os.path.join(figures_folder, basename(orig_path))` (the source
asset file is assumed to exist, so the guarded `shutil.move` always runs). -/
def relocateImages (figuresFolder : String) (data : List ContentUnit) :
    List ContentUnit :=
  data.map (fun d =>
    if d.type = "Image" then
      { d with imagePath := figuresFolder ++ "/" ++ basename d.imagePath }
    else d)

/-- The per-unit text of `create_chunks`: an Image unit contributes the marker
built from its summary and its path made relative by
`image_path.replace(os.getcwd(), ".")`; every other unit contributes its raw
`text`. -/
def unitText (cwd : String) (d : ContentUnit) : String :=
  if d.type = "Image" then
    "![" ++ d.imageSummary ++ "](" ++ pyReplace d.imagePath cwd "." ++ ")"
  else d.text

/-- `create_chunks`: one chunk per page group, the units' texts joined by
`"\n".join`. -/
def createChunks (cwd : String) (dataByPage : List (List ContentUnit)) :
    List String :=
  dataByPage.map (fun page => pyJoin "\n" (page.map (unitText cwd)))

/-- The spec's per-unit materialization rule, written from its words:
Image → `![summary](relative_path)`, all other types → their raw extracted
text. -/
def unitContribution (cwd : String) (d : ContentUnit) : String :=
  if d.type = "Image" then
    "![" ++ d.imageSummary ++ "](" ++ pyReplace d.imagePath cwd "." ++ ")"
  else d.text

/-- The spec's serialization of one group, written from its words: the units'
contributions in original order, with a newline separator between consecutive
units and no unit dropped. -/
def serializeGroup (cwd : String) : List ContentUnit → String
  | [] => ""
  | [d] => unitContribution cwd d
  | d :: e :: ds => unitContribution cwd d ++ "\n" ++ serializeGroup cwd (e :: ds)

/-- The spec's materialization, written from its words: one serialized string
per group, in order. -/
def materializeSpec (cwd : String) : List (List ContentUnit) → List String
  | [] => []
  | g :: gs => serializeGroup cwd g :: materializeSpec cwd gs

/-- The retry loop of `summarise_image`: `attempt` is the loop index,
`maxRetries` the bound; the oracle gives each attempt's outcome (`ok` with the
response text, or `error` for a raised exception).  On the last failed attempt
the sentinel string is returned; `none` models falling off the loop (only
possible when `maxRetries = 0`). -/
def summariseImageGo (oracle : Nat → Except Unit String) (maxRetries : Nat)
    (attempt : Nat) : Option String :=
  if attempt < maxRetries then
    match oracle attempt with
    | .ok t => some t
    | .error _ =>
      if attempt = maxRetries - 1 then some "Error: Unable to summarize image"
      else summariseImageGo oracle maxRetries (attempt + 1)
  else none
termination_by maxRetries - attempt
decreasing_by omega

/-- `summarise_image` with its fixed `max_retries = 3`, starting at attempt 0. -/
def summariseImage (oracle : Nat → Except Unit String) : Option String :=
  summariseImageGo oracle 3 0

/-- The persisted DocumentRecord written by `_save_pdf_metadata`. -/
structure PdfMeta where
  pdfName : String
  fullPath : String
  chunkCount : Nat
  processingStatus : String
  deriving Repr, DecidableEq

/-- One vector-store entry as assembled by `ingest_pdf`'s `collection.add`
call: the id, the stored chunk text, its embedding, and the three metadata
fields. -/
structure IndexEntry where
  id : String
  document : String
  embedding : List Int
  pdfName : String
  pageNumber : Nat
  chunkNumber : Nat
  deriving Repr, DecidableEq

/-- The persistent state the pipeline mutates: the ChromaDB collection
(`none` while no collection of that name exists), the `metadata/` directory
(one DocumentRecord file keyed by pdf name), and the per-document asset
folders under `uploaded_pdfs/`. -/
structure RagState where
  collection : Option (List IndexEntry)
  metadataFiles : List (String × PdfMeta)
  assetFolders : List String
  deriving Repr, DecidableEq

/-- `os.makedirs(..., exist_ok=True)` on the tracked folder list. -/
def insertFolder (folders : List String) (f : String) : List String :=
  if folders.contains f then folders else folders ++ [f]

/-- `_save_pdf_metadata`: writes (overwrites) the JSON record keyed by
`basename(pdf_path)`, with `processing_status` `"completed"` and the chunk
count. -/
def savePdfMetadata (st : RagState) (pdfPath : String) (chunks : List String) :
    RagState :=
  { st with metadataFiles :=
      (st.metadataFiles.filter (fun p => p.1 ≠ basename pdfPath)) ++
        [(basename pdfPath,
          { pdfName := basename pdfPath
            fullPath := pdfPath
            chunkCount := chunks.length
            processingStatus := "completed" })] }

/-- `_load_pdf_metadata`: the record stored under `<pdf_name>.json`, if any. -/
def loadPdfMetadata (st : RagState) (pdfName : String) : Option PdfMeta :=
  (st.metadataFiles.find? (fun p => p.1 == pdfName)).map (fun p => p.2)

/-- The pure chunk pipeline inside `process_pdf`'s `try` block: summarize
images, relocate their assets into the figures folder, group by page, and
materialize chunks (made relative using `cwd = os.getcwd()`). -/
def pdfChunks (cwd pdfPath : String) (summarise : String → String)
    (units : List ContentUnit) : List String :=
  createChunks cwd
    (groupDataByPage
      (relocateImages (figuresFolderOf pdfPath)
        (replaceImageWithSummary summarise units)))

/-- `process_pdf`: creates the document's asset folder, then (inside `try`)
copies the PDF, parses it (`parse` is the `partition_pdf` outcome), summarizes
and relocates images, chunks, and finally persists the DocumentRecord.  A
parse failure re-raises with no record written; the folder creation precedes
the `try` block and always happens. -/
def processPdf (st : RagState) (cwd pdfPath : String)
    (parse : Except Unit (List ContentUnit)) (summarise : String → String) :
    Except Unit (List String) × RagState :=
  let st1 : RagState :=
    { st with assetFolders := insertFolder st.assetFolders (pdfFolderOf pdfPath) }
  match parse with
  | .error e => (.error e, st1)
  | .ok units =>
    let chunks := pdfChunks cwd pdfPath summarise units
    (.ok chunks, savePdfMetadata st1 (pdfDestOf pdfPath) chunks)

/-- The list comprehension `[get_query_embedding(chunk) for chunk in chunks]`:
the first failing embedding call aborts the whole comprehension. -/
def mapExcept {α β ε : Type} (f : α → Except ε β) : List α → Except ε (List β)
  | [] => .ok []
  | a :: as =>
    match f a with
    | .error e => .error e
    | .ok b =>
      match mapExcept f as with
      | .error e => .error e
      | .ok bs => .ok (b :: bs)

/-- The entries assembled by `ingest_pdf`'s `collection.add` call: ids
`"<pdf_name>_chunk_<i>"`, the chunks as documents, and metadata
`{pdf_name, page_number: i+1, chunk_number: i}` for `i` below the chunk
count. -/
def ingestEntries (pdfName : String) (chunks : List String)
    (embeds : List (List Int)) : List IndexEntry :=
  (List.range chunks.length).map (fun i =>
    { id := pdfName ++ "_chunk_" ++ toString i
      document := chunks.getD i ""
      embedding := embeds.getD i []
      pdfName := pdfName
      pageNumber := i + 1
      chunkNumber := i })

/-- Modelled from the spec: the vector-store bulk add keyed by id (§4.4 calls
it a bulk upsert, §6 lists `add(ids, documents, embeddings, metadatas)`).  The
ChromaDB library is not part of the repository sources, so its id semantics is
taken from the spec: inserting an entry replaces any live entry with the same
id. -/
def collectionAdd (store : List IndexEntry) (new : List IndexEntry) :
    List IndexEntry :=
  new.foldl (fun s e => s.filter (fun x => x.id ≠ e.id) ++ [e]) store

/-- `ingest_pdf`: process the PDF (persisting the DocumentRecord on chunking
success), `get_or_create` the collection, embed every chunk, and add the
entries.  Any raised step re-raises after the state changes already made. -/
def ingestPdf (st : RagState) (cwd pdfPath : String)
    (parse : Except Unit (List ContentUnit)) (summarise : String → String)
    (embed : String → Except Unit (List Int)) : Except Unit Unit × RagState :=
  match processPdf st cwd pdfPath parse summarise with
  | (.error e, st1) => (.error e, st1)
  | (.ok chunks, st1) =>
    let st2 : RagState := { st1 with collection := some (st1.collection.getD []) }
    match mapExcept embed chunks with
    | .error e => (.error e, st2)
    | .ok embeds =>
      let store := st2.collection.getD []
      let added := collectionAdd store (ingestEntries (basename pdfPath) chunks embeds)
      (.ok (), { st2 with collection := some added })

/-- The number of live entries of a store that carry a given id. -/
def idCount (store : List IndexEntry) (i : String) : Nat :=
  (store.filter (fun e => e.id = i)).length

/-- `collection.delete(ids=...)`: drops every entry whose id is listed. -/
def collectionDeleteIds (store : List IndexEntry) (ids : List String) :
    List IndexEntry :=
  store.filter (fun e => ¬ ids.contains e.id)

/-- The effective `remove_pdf_from_chromadb` (the second definition in the
class body shadows the first): `get_collection` — which raises when the named
collection does not exist (ChromaDB semantics; the repository wraps such calls
in `try`/`except` elsewhere) — then `collection.get()`, selection of the ids
whose `pdf_name` metadata matches, and `collection.delete(ids=...)` when the
selection is non-empty.  It touches neither the metadata files nor the asset
folders. -/
def removePdfFromChromadb (st : RagState) (pdfName : String) :
    Except Unit RagState :=
  match st.collection with
  | none => .error ()
  | some store =>
    let docIdsToRemove :=
      (store.filter (fun e => e.pdfName = pdfName)).map (fun e => e.id)
    if docIdsToRemove.isEmpty then .ok st
    else .ok { st with collection := some (collectionDeleteIds store docIdsToRemove) }

/-- Modelled from the spec: `collection.query` nearest-neighbour search
(§4.5 — returns the most relevant documents, fewer than `top_k` when the
collection holds fewer entries).  The ChromaDB library is not part of the
repository sources; only the cardinality of the result matters to the claims,
so the ranking is modelled as the stored order. -/
def collectionQuery (store : List IndexEntry) (topK : Nat) : List String :=
  (store.take topK).map (fun e => e.document)

/-- `retrieve_similar_documents`: `get_collection` (raises when the collection
does not exist), embed the query, run the nearest-neighbour query, and return
the documents of the first result row. -/
def retrieveSimilarDocuments (st : RagState)
    (embed : String → Except Unit (List Int)) (queryText : String)
    (topK : Nat) : Except Unit (List String) :=
  match st.collection with
  | none => .error ()
  | some store =>
    match embed queryText with
    | .error e => .error e
    | .ok _ => .ok (collectionQuery store topK)

/-- `prompt_builder`: the exact f-string template, with the interpolated
context and question. -/
def promptBuilder (context question : String) : String :=
  "Context:\n    \n        " ++ context ++ "\n        \n        Question: " ++
    question ++ "\n        "

/-- Python's `repr` of a string that contains no quote, backslash or control
character: the text wrapped in single quotes. -/
def pyReprStr (s : String) : String := "'" ++ s ++ "'"

/-- Python's `str` of a list of strings, as produced when a list is
interpolated into an f-string: the elements' `repr`s joined by `", "` inside
square brackets. -/
def pyStrOfList (l : List String) : String :=
  "[" ++ pyJoin ", " (l.map pyReprStr) ++ "]"

/-- The prompt `invoke` submits to the generation service: the retrieved
documents list (a Python list, so its `str` form is interpolated) and the raw
question, through `prompt_builder`; retrieval failure propagates (in the
source it is caught at the very end of `invoke` and mapped to the fallback
message). -/
def invokePrompt (st : RagState) (embed : String → Except Unit (List Int))
    (question : String) : Except Unit String :=
  match retrieveSimilarDocuments st embed question 3 with
  | .error e => .error e
  | .ok context => .ok (promptBuilder (pyStrOfList context) question)

/-- `t` occurs as a substring of the character list. -/
def containsAux (t : List Char) : List Char → Bool
  | [] => t.isEmpty
  | c :: cs => t.isPrefixOf (c :: cs) || containsAux t cs

/-- `t` occurs as a substring of `s`. -/
def containsSubstring (s t : String) : Bool :=
  containsAux t.data s.data

theorem groupAux_flatten (l : List ContentUnit) :
    ∀ prev cur c,
      (groupAux prev cur c l).flatten = prev.flatten ++ cur ++ nonFooters l := by
  induction l with
  | nil => intro prev cur c; simp [groupAux, nonFooters]
  | cons d ds ih =>
    intro prev cur c
    by_cases hf : d.type = "Footer"
    · simp [groupAux, hf, nonFooters, List.filter_cons, ih]
    · by_cases hp : d.pageNumber ≠ c
      · simp [groupAux, hf, hp, nonFooters, List.filter_cons, ih]
      · simp [groupAux, hf, hp, nonFooters, List.filter_cons, ih]

theorem groupAux_eq_splitAux (l : List ContentUnit) :
    ∀ prev cur c, pagesRunFrom c l = true →
      groupAux prev cur c l = prev ++ splitAux cur c l := by
  induction l with
  | nil => intro prev cur c _; simp [groupAux, splitAux]
  | cons d ds ih =>
    intro prev cur c h
    by_cases hf : d.type = "Footer"
    · simp only [pagesRunFrom, if_pos hf] at h
      simp [groupAux, splitAux, hf, ih _ _ _ h]
    · simp only [pagesRunFrom, if_neg hf, Bool.and_eq_true, Bool.or_eq_true,
        beq_iff_eq] at h
      obtain ⟨hpage, hrest⟩ := h
      rcases hpage with hpage | hpage
      · subst hpage
        simp [groupAux, splitAux, hf, ih _ _ _ hrest]
      · have hne : d.pageNumber ≠ c := by omega
        have hc1 : d.pageNumber = c + 1 := hpage
        simp [groupAux, splitAux, hf, hne, hc1, ih _ _ _ (hc1 ▸ hrest)]

theorem groupAux_all_footer :
    ∀ (l : List ContentUnit), (∀ d ∈ l, d.type = "Footer") →
      ∀ prev cur c, groupAux prev cur c l = prev ++ [cur]
  | [], _, _, _, _ => rfl
  | d :: ds, h, prev, cur, c => by
    have hd : d.type = "Footer" := h d (List.mem_cons_self d ds)
    simp only [groupAux, if_pos hd]
    exact groupAux_all_footer ds (fun x hx => h x (List.mem_cons_of_mem d hx)) prev cur c

theorem groupAux_length (l : List ContentUnit) :
    ∀ prev cur c, prev.length + 1 ≤ (groupAux prev cur c l).length := by
  induction l with
  | nil => intro prev cur c; simp [groupAux]
  | cons d ds ih =>
    intro prev cur c
    by_cases hf : d.type = "Footer"
    · simpa [groupAux, hf] using ih prev cur c
    · by_cases hp : d.pageNumber ≠ c
      · have h2 := ih (prev ++ [cur]) [d] (c + 1)
        simp only [List.length_append, List.length_cons, List.length_nil] at h2
        simp only [groupAux, if_neg hf, if_pos hp]
        omega
      · simpa [groupAux, hf, hp] using ih prev (cur ++ [d]) c

/-- C3: the claim's grouping rule fails on the code.  First input: page
numbers `[1, 3, 3]` — the two consecutive non-footer units with equal page
number 3 are placed in *different* groups (the internal counter is 1 when the
first page-3 unit arrives and 2 when the second arrives, and it never equals
3).  Second input: page numbers `[3, 2]` — both units land in one group, so a
group can even mix two distinct page numbers. -/
theorem c3_grouping_counterexample :
    (groupDataByPage
        [ContentUnit.mk "NarrativeText" "a" 1 "" "",
         ContentUnit.mk "NarrativeText" "b" 3 "" "",
         ContentUnit.mk "NarrativeText" "c" 3 "" ""] =
      [[ContentUnit.mk "NarrativeText" "a" 1 "" ""],
       [ContentUnit.mk "NarrativeText" "b" 3 "" ""],
       [ContentUnit.mk "NarrativeText" "c" 3 "" ""]] ∧
      (ContentUnit.mk "NarrativeText" "b" 3 "" "").pageNumber =
        (ContentUnit.mk "NarrativeText" "c" 3 "" "").pageNumber ∧
      (ContentUnit.mk "NarrativeText" "b" 3 "" "").type ≠ "Footer" ∧
      (ContentUnit.mk "NarrativeText" "c" 3 "" "").type ≠ "Footer") ∧
    (groupDataByPage
        [ContentUnit.mk "NarrativeText" "a" 3 "" "",
         ContentUnit.mk "NarrativeText" "b" 2 "" ""] =
      [[],
       [ContentUnit.mk "NarrativeText" "a" 3 "" "",
        ContentUnit.mk "NarrativeText" "b" 2 "" ""]] ∧
      (ContentUnit.mk "NarrativeText" "a" 3 "" "").pageNumber ≠
        (ContentUnit.mk "NarrativeText" "b" 2 "" "").pageNumber) := by
  decide

/-- C3 (amended): grouping drops Footer units and compares each unit's page
number against an internal counter that starts at 1 and increments by one per
new group.  When the non-footer page numbers run contiguously from 1 (each
page equal to its predecessor or its successor), this coincides with the
spec's rule — a new group starts exactly when the page number changes
(`splitOnPageChange`); and unconditionally no unit other than a Footer is
dropped and the order is preserved. -/
theorem c3_grouping_amended (l : List ContentUnit)
    (h : pagesRunFrom 1 l = true) :
    groupDataByPage l = splitOnPageChange l ∧
    (groupDataByPage l).flatten = nonFooters l := by
  constructor
  · simpa [groupDataByPage, splitOnPageChange] using
      groupAux_eq_splitAux l [] [] 1 h
  · simpa [groupDataByPage] using groupAux_flatten l [] [] 1

theorem c3_grouping_amended_witness :
    pagesRunFrom 1
        [ContentUnit.mk "NarrativeText" "a" 1 "" "",
         ContentUnit.mk "Footer" "f" 1 "" "",
         ContentUnit.mk "NarrativeText" "b" 2 "" ""] = true ∧
    (groupDataByPage
        [ContentUnit.mk "NarrativeText" "a" 1 "" "",
         ContentUnit.mk "Footer" "f" 1 "" "",
         ContentUnit.mk "NarrativeText" "b" 2 "" ""] =
      splitOnPageChange
        [ContentUnit.mk "NarrativeText" "a" 1 "" "",
         ContentUnit.mk "Footer" "f" 1 "" "",
         ContentUnit.mk "NarrativeText" "b" 2 "" ""] ∧
    (groupDataByPage
        [ContentUnit.mk "NarrativeText" "a" 1 "" "",
         ContentUnit.mk "Footer" "f" 1 "" "",
         ContentUnit.mk "NarrativeText" "b" 2 "" ""]).flatten =
      nonFooters
        [ContentUnit.mk "NarrativeText" "a" 1 "" "",
         ContentUnit.mk "Footer" "f" 1 "" "",
         ContentUnit.mk "NarrativeText" "b" 2 "" ""]) :=
  ⟨by decide, c3_grouping_amended _ (by decide)⟩

/-- C10: the group list always holds at least one group (hence at least one
chunk is always produced), and a stream whose units are all footers (the empty
stream included) yields exactly one group, the empty one, whose chunk is the
empty string. -/
theorem c10_trivial_stream (cwd : String) (l : List ContentUnit) :
    1 ≤ (createChunks cwd (groupDataByPage l)).length ∧
    ((∀ d ∈ l, d.type = "Footer") →
      groupDataByPage l = [[]] ∧ createChunks cwd (groupDataByPage l) = [""]) := by
  constructor
  · have h1 := groupAux_length l [] [] 1
    simp only [createChunks, List.length_map, groupDataByPage]
    simpa using h1
  · intro h
    have hg : groupDataByPage l = [[]] := by
      simpa [groupDataByPage] using groupAux_all_footer l h [] [] 1
    exact ⟨hg, by rw [hg]; rfl⟩

theorem c10_trivial_stream_witness :
    (1 ≤ (createChunks "" (groupDataByPage [ContentUnit.mk "Footer" "f" 1 "" ""])).length) ∧
    groupDataByPage [ContentUnit.mk "Footer" "f" 1 "" ""] = [[]] ∧
    createChunks "" (groupDataByPage [ContentUnit.mk "Footer" "f" 1 "" ""]) = [""] :=
  ⟨(c10_trivial_stream "" [ContentUnit.mk "Footer" "f" 1 "" ""]).1,
   (c10_trivial_stream "" [ContentUnit.mk "Footer" "f" 1 "" ""]).2 (by decide)⟩

theorem unitText_eq_contribution (cwd : String) (d : ContentUnit) :
    unitText cwd d = unitContribution cwd d := rfl

theorem pyJoin_map_serialize (cwd : String) (g : List ContentUnit) :
    pyJoin "\n" (g.map (unitText cwd)) = serializeGroup cwd g := by
  induction g with
  | nil => rfl
  | cons d ds ih =>
    cases ds with
    | nil => simp [pyJoin, serializeGroup, unitText_eq_contribution]
    | cons e es =>
      simp only [List.map_cons] at ih ⊢
      show unitText cwd d ++ "\n" ++
          pyJoin "\n" (unitText cwd e :: List.map (unitText cwd) es) =
        unitContribution cwd d ++ "\n" ++ serializeGroup cwd (e :: es)
      rw [ih, unitText_eq_contribution]

/-- C7: chunk materialization is exactly the spec's rule — one chunk per
group, each unit contributing its raw text (or the
`![summary](relative_path)` marker for Image units), contributions joined by
newline separators in the units' original order with no unit dropped
(`materializeSpec`/`serializeGroup` are written from the spec's words) — and
no group is dropped. -/
theorem c7_materialization (cwd : String) (groups : List (List ContentUnit)) :
    createChunks cwd groups = materializeSpec cwd groups ∧
    (createChunks cwd groups).length = groups.length := by
  constructor
  · induction groups with
    | nil => rfl
    | cons g gs ih =>
      simp only [createChunks, List.map_cons, materializeSpec] at ih ⊢
      exact congrArg₂ (· :: ·) (pyJoin_map_serialize cwd g) ih
  · simp [createChunks]

theorem summariseImageGo_eq (oracle : Nat → Except Unit String) (m a : Nat) :
    summariseImageGo oracle m a =
      if a < m then
        match oracle a with
        | .ok t => some t
        | .error _ =>
          if a = m - 1 then some "Error: Unable to summarize image"
          else summariseImageGo oracle m (a + 1)
      else none := by
  rw [summariseImageGo]

theorem summariseImageGo_agree (o1 o2 : Nat → Except Unit String) (m : Nat)
    (h : ∀ i, i < m → o1 i = o2 i) :
    ∀ k a, m - a ≤ k → summariseImageGo o1 m a = summariseImageGo o2 m a := by
  intro k
  induction k with
  | zero =>
    intro a hk
    have ha : ¬ a < m := by omega
    rw [summariseImageGo_eq o1, summariseImageGo_eq o2, if_neg ha, if_neg ha]
  | succ k ih =>
    intro a _
    by_cases ha : a < m
    · rw [summariseImageGo_eq o1, summariseImageGo_eq o2, if_pos ha, if_pos ha,
        ← h a ha]
      cases oa : o1 a with
      | ok t => rfl
      | error e =>
        by_cases hlast : a = m - 1
        · simp [hlast]
        · simp only [if_neg hlast]
          exact ih (a + 1) (by omega)
    · rw [summariseImageGo_eq o1, summariseImageGo_eq o2, if_neg ha, if_neg ha]

/-- C6: `summarise_image` makes at most 3 attempts — three failing attempts
yield exactly the sentinel `"Error: Unable to summarize image"` rather than
raising (the result is `some`, never an exception), and the outcome depends
only on the first three attempt results.  Downstream, a document containing
an image whose summary is the sentinel produces a chunk for that page
containing the literal sentinel, and ingestion of the whole document still
succeeds. -/
theorem c6_summarise_retry (oracle oracle2 : Nat → Except Unit String)
    (summarise : String → String)
    (h3 : ∀ i, i < 3 → oracle i = Except.error ())
    (hagree : ∀ i, i < 3 → oracle i = oracle2 i)
    (hs : summarise "figs/img1.jpg" = "Error: Unable to summarize image") :
    summariseImage oracle = some "Error: Unable to summarize image" ∧
    summariseImage oracle = summariseImage oracle2 ∧
    containsSubstring
        ((pdfChunks "/w" "a.pdf" summarise
          [ContentUnit.mk "NarrativeText" "t1" 1 "" "",
           ContentUnit.mk "Image" "" 1 "figs/img1.jpg" "",
           ContentUnit.mk "NarrativeText" "t2" 2 "" ""]).getD 0 "")
        "Error: Unable to summarize image" = true ∧
    (ingestPdf ⟨none, [], []⟩ "/w" "a.pdf"
        (Except.ok
          [ContentUnit.mk "NarrativeText" "t1" 1 "" "",
           ContentUnit.mk "Image" "" 1 "figs/img1.jpg" "",
           ContentUnit.mk "NarrativeText" "t2" 2 "" ""])
        summarise (fun _ => Except.ok [])).1 = Except.ok () := by
  have h1 : replaceImageWithSummary summarise
      [ContentUnit.mk "NarrativeText" "t1" 1 "" "",
       ContentUnit.mk "Image" "" 1 "figs/img1.jpg" "",
       ContentUnit.mk "NarrativeText" "t2" 2 "" ""] =
      [ContentUnit.mk "NarrativeText" "t1" 1 "" "",
       ContentUnit.mk "Image" "" 1 "figs/img1.jpg"
         "Error: Unable to summarize image",
       ContentUnit.mk "NarrativeText" "t2" 2 "" ""] := by
    simp [replaceImageWithSummary, hs]
  refine ⟨?_, ?_, ?_, ?_⟩
  · have e0 := h3 0 (by norm_num)
    have e1 := h3 1 (by norm_num)
    have e2 := h3 2 (by norm_num)
    simp [summariseImage, summariseImageGo, e0, e1, e2]
  · exact summariseImageGo_agree oracle oracle2 3 hagree 3 0 (by norm_num)
  · rw [pdfChunks, h1]
    rfl
  · rw [ingestPdf, processPdf]
    simp only [pdfChunks, h1]
    rfl

theorem c6_summarise_retry_witness :
    summariseImage (fun _ => Except.error ()) =
      some "Error: Unable to summarize image" ∧
    summariseImage (fun _ => Except.error ()) =
      summariseImage (fun i => if i < 3 then Except.error () else Except.ok "late") ∧
    containsSubstring
        ((pdfChunks "/w" "a.pdf" (fun _ => "Error: Unable to summarize image")
          [ContentUnit.mk "NarrativeText" "t1" 1 "" "",
           ContentUnit.mk "Image" "" 1 "figs/img1.jpg" "",
           ContentUnit.mk "NarrativeText" "t2" 2 "" ""]).getD 0 "")
        "Error: Unable to summarize image" = true ∧
    (ingestPdf ⟨none, [], []⟩ "/w" "a.pdf"
        (Except.ok
          [ContentUnit.mk "NarrativeText" "t1" 1 "" "",
           ContentUnit.mk "Image" "" 1 "figs/img1.jpg" "",
           ContentUnit.mk "NarrativeText" "t2" 2 "" ""])
        (fun _ => "Error: Unable to summarize image")
        (fun _ => Except.ok [])).1 = Except.ok () :=
  c6_summarise_retry (fun _ => Except.error ())
    (fun i => if i < 3 then Except.error () else Except.ok "late")
    (fun _ => "Error: Unable to summarize image")
    (fun _ _ => rfl) (fun i hi => by simp [hi]) rfl

/-- C4: a successful ingestion adds exactly the entries built from the chunk
list: one entry per chunk, the `i`-th entry carrying id
`"<document_name>_chunk_<i>"`, the `i`-th chunk text as stored document, and
metadata `{pdf_name, page_number: i+1, chunk_number: i}`. -/
theorem c4_index_entries (st : RagState) (cwd pdfPath : String)
    (units : List ContentUnit) (summarise : String → String)
    (embed : String → Except Unit (List Int)) (embeds : List (List Int))
    (dflt : IndexEntry) (i : Nat)
    (hembed : mapExcept embed (pdfChunks cwd pdfPath summarise units) =
      Except.ok embeds)
    (hi : i < (pdfChunks cwd pdfPath summarise units).length) :
    (ingestPdf st cwd pdfPath (Except.ok units) summarise embed).1 =
      Except.ok () ∧
    (ingestPdf st cwd pdfPath (Except.ok units) summarise embed).2.collection =
      some (collectionAdd (st.collection.getD [])
        (ingestEntries (basename pdfPath)
          (pdfChunks cwd pdfPath summarise units) embeds)) ∧
    (ingestEntries (basename pdfPath)
        (pdfChunks cwd pdfPath summarise units) embeds).length =
      (pdfChunks cwd pdfPath summarise units).length ∧
    (ingestEntries (basename pdfPath)
        (pdfChunks cwd pdfPath summarise units) embeds).getD i dflt =
      { id := basename pdfPath ++ "_chunk_" ++ toString i
        document := (pdfChunks cwd pdfPath summarise units).getD i ""
        embedding := embeds.getD i []
        pdfName := basename pdfPath
        pageNumber := i + 1
        chunkNumber := i } := by
  refine ⟨?_, ?_, ?_, ?_⟩
  · simp [ingestPdf, processPdf, hembed]
  · simp [ingestPdf, processPdf, hembed, savePdfMetadata, insertFolder]
  · simp [ingestEntries]
  · simp [ingestEntries, List.getD_eq_getElem?_getD, List.getElem?_map,
      List.getElem?_range, hi]

theorem c4_index_entries_witness :
    mapExcept (fun _ => (Except.ok [(1 : Int)] : Except Unit (List Int)))
        (pdfChunks "/w" "a.pdf" (fun _ => "s")
          [ContentUnit.mk "NarrativeText" "hello" 1 "" ""]) =
      Except.ok [[(1 : Int)]] ∧
    0 < (pdfChunks "/w" "a.pdf" (fun _ => "s")
        [ContentUnit.mk "NarrativeText" "hello" 1 "" ""]).length ∧
    ((ingestPdf ⟨some [], [], []⟩ "/w" "a.pdf"
        (Except.ok [ContentUnit.mk "NarrativeText" "hello" 1 "" ""])
        (fun _ => "s") (fun _ => Except.ok [(1 : Int)])).1 = Except.ok () ∧
      (ingestPdf ⟨some [], [], []⟩ "/w" "a.pdf"
          (Except.ok [ContentUnit.mk "NarrativeText" "hello" 1 "" ""])
          (fun _ => "s") (fun _ => Except.ok [(1 : Int)])).2.collection =
        some (collectionAdd ((some ([] : List IndexEntry)).getD [])
          (ingestEntries (basename "a.pdf")
            (pdfChunks "/w" "a.pdf" (fun _ => "s")
              [ContentUnit.mk "NarrativeText" "hello" 1 "" ""]) [[(1 : Int)]])) ∧
      (ingestEntries (basename "a.pdf")
          (pdfChunks "/w" "a.pdf" (fun _ => "s")
            [ContentUnit.mk "NarrativeText" "hello" 1 "" ""]) [[(1 : Int)]]).length =
        (pdfChunks "/w" "a.pdf" (fun _ => "s")
          [ContentUnit.mk "NarrativeText" "hello" 1 "" ""]).length ∧
      (ingestEntries (basename "a.pdf")
          (pdfChunks "/w" "a.pdf" (fun _ => "s")
            [ContentUnit.mk "NarrativeText" "hello" 1 "" ""]) [[(1 : Int)]]).getD 0
          (IndexEntry.mk "" "" [] "" 0 0) =
        { id := basename "a.pdf" ++ "_chunk_" ++ toString 0
          document := (pdfChunks "/w" "a.pdf" (fun _ => "s")
            [ContentUnit.mk "NarrativeText" "hello" 1 "" ""]).getD 0 ""
          embedding := [[(1 : Int)]].getD 0 []
          pdfName := basename "a.pdf"
          pageNumber := 0 + 1
          chunkNumber := 0 }) :=
  ⟨rfl, by decide,
   c4_index_entries ⟨some [], [], []⟩ "/w" "a.pdf"
     [ContentUnit.mk "NarrativeText" "hello" 1 "" ""] (fun _ => "s")
     (fun _ => Except.ok [(1 : Int)]) [[(1 : Int)]]
     (IndexEntry.mk "" "" [] "" 0 0) 0 rfl (by decide)⟩

theorem idCount_filter_ne (s : List IndexEntry) (x : String) :
    idCount (s.filter (fun e => e.id ≠ x)) x = 0 := by
  induction s with
  | nil => rfl
  | cons a as ih =>
    by_cases h : a.id = x
    · simp [idCount, List.filter_cons, h]
    · simp [idCount, List.filter_cons, h]

theorem idCount_filter_le (s : List IndexEntry) (p : IndexEntry → Bool)
    (j : String) : idCount (s.filter p) j ≤ idCount s j :=
  ((s.filter_sublist (p := p)).filter _).length_le

theorem idCount_singleton_le (e : IndexEntry) (j : String) :
    idCount [e] j ≤ 1 := by
  by_cases h : e.id = j <;> simp [idCount, List.filter_cons, h]

theorem collectionAdd_idCount_le (new : List IndexEntry) :
    ∀ s, (∀ j, idCount s j ≤ 1) → ∀ i, idCount (collectionAdd s new) i ≤ 1 := by
  induction new with
  | nil => exact fun s hs => hs
  | cons e es ih =>
    intro s hs i
    have hcons : collectionAdd s (e :: es) =
        collectionAdd (s.filter (fun x => x.id ≠ e.id) ++ [e]) es := rfl
    rw [hcons]
    refine ih _ ?_ i
    intro j
    have happ : idCount (s.filter (fun x => x.id ≠ e.id) ++ [e]) j =
        idCount (s.filter (fun x => x.id ≠ e.id)) j + idCount [e] j := by
      simp [idCount, List.filter_append]
    rw [happ]
    by_cases hj : e.id = j
    · have h0 : idCount (s.filter (fun x => x.id ≠ e.id)) j = 0 := by
        rw [← hj]; exact idCount_filter_ne s e.id
      have h1 := idCount_singleton_le e j
      omega
    · have h0 : idCount [e] j = 0 := by simp [idCount, List.filter_cons, hj]
      have hle : idCount (s.filter (fun x => x.id ≠ e.id)) j ≤ 1 :=
        le_trans (idCount_filter_le s _ j) (hs j)
      omega

theorem ingestPdf_idCount (st : RagState) (cwd pdfPath : String)
    (parse : Except Unit (List ContentUnit)) (summarise : String → String)
    (embed : String → Except Unit (List Int))
    (h : ∀ store j, st.collection = some store → idCount store j ≤ 1) :
    ∀ store j,
      (ingestPdf st cwd pdfPath parse summarise embed).2.collection = some store →
      idCount store j ≤ 1 := by
  have hbase : ∀ j, idCount (st.collection.getD []) j ≤ 1 := by
    intro j
    cases hc : st.collection with
    | none => simp [idCount]
    | some s => exact h s j hc
  cases parse with
  | error e =>
    intro store j hst
    simp only [ingestPdf, processPdf] at hst
    exact h store j hst
  | ok units =>
    intro store j hst
    simp only [ingestPdf, processPdf] at hst
    cases hm : mapExcept embed (pdfChunks cwd pdfPath summarise units) with
    | error e =>
      rw [hm] at hst
      simp only [savePdfMetadata, insertFolder] at hst
      simp only [Option.some.injEq] at hst
      subst hst
      exact hbase j
    | ok embeds =>
      rw [hm] at hst
      simp only [savePdfMetadata, insertFolder] at hst
      simp only [Option.some.injEq] at hst
      subst hst
      exact collectionAdd_idCount_le _ _ hbase j

/-- C5: starting from any state whose collection holds at most one live entry
per id, ingesting the same document twice in succession leaves at most one
live index entry per id — the add is modelled as the spec's overwrite-by-id
bulk upsert, and it creates no duplicate live entries. -/
theorem c5_reingest_no_duplicates (st : RagState) (cwd pdfPath : String)
    (parse : Except Unit (List ContentUnit)) (summarise : String → String)
    (embed : String → Except Unit (List Int)) (store2 : List IndexEntry)
    (j : String)
    (h1 : ∀ store j0, st.collection = some store → idCount store j0 ≤ 1)
    (h2 : (ingestPdf (ingestPdf st cwd pdfPath parse summarise embed).2 cwd
        pdfPath parse summarise embed).2.collection = some store2) :
    idCount store2 j ≤ 1 :=
  ingestPdf_idCount _ _ _ _ _ _
    (ingestPdf_idCount _ _ _ _ _ _ h1) store2 j h2

theorem c5_reingest_no_duplicates_witness :
    idCount [IndexEntry.mk "a.pdf_chunk_0" "hello" [] "a.pdf" 1 0]
        "a.pdf_chunk_0" ≤ 1 :=
  c5_reingest_no_duplicates ⟨none, [], []⟩ "/w" "a.pdf"
    (Except.ok [ContentUnit.mk "NarrativeText" "hello" 1 "" ""]) (fun _ => "s")
    (fun _ => Except.ok []) _ "a.pdf_chunk_0"
    (fun _ _ h => by simp at h) rfl

theorem find_filter_append (v : PdfMeta) (k : String)
    (ms : List (String × PdfMeta)) :
    ((ms.filter (fun p => p.1 ≠ k)) ++ [(k, v)]).find? (fun p => p.1 == k) =
      some (k, v) := by
  induction ms with
  | nil => simp [List.find?]
  | cons m rest ih =>
    by_cases h : m.1 = k
    · rw [List.filter_cons_of_neg (by simp [h])]
      exact ih
    · simp [List.filter_cons, h, List.find?_cons, ih]

theorem loadPdfMetadata_save (st : RagState) (pdfPath : String)
    (chunks : List String) :
    loadPdfMetadata (savePdfMetadata st pdfPath chunks) (basename pdfPath) =
      some { pdfName := basename pdfPath
             fullPath := pdfPath
             chunkCount := chunks.length
             processingStatus := "completed" } := by
  simp only [loadPdfMetadata, savePdfMetadata]
  rw [find_filter_append]
  rfl

/-- C1 counterexample: a concrete document whose extraction, summarization and
chunking succeed but whose embedding call raises.  `ingest_pdf` re-raises —
yet the DocumentRecord for `a.pdf` has already been persisted by
`process_pdf` (status `"completed"`, chunk count 1), so a post-extraction
failure does not prevent the record from being written. -/
theorem c1_record_counterexample :
    (ingestPdf ⟨none, [], []⟩ "/w" "docs/a.pdf"
        (Except.ok [ContentUnit.mk "NarrativeText" "hello" 1 "" ""])
        (fun _ => "s") (fun _ => Except.error ())).1 = Except.error () ∧
    loadPdfMetadata
        (ingestPdf ⟨none, [], []⟩ "/w" "docs/a.pdf"
          (Except.ok [ContentUnit.mk "NarrativeText" "hello" 1 "" ""])
          (fun _ => "s") (fun _ => Except.error ())).2 "a.pdf" =
      some (PdfMeta.mk "a.pdf" "uploaded_pdfs/a/a.pdf" 1 "completed") :=
  ⟨rfl, rfl⟩

/-- C1 (amended): the DocumentRecord is persisted as soon as extraction,
summarization and chunking succeed — at the end of `process_pdf`, before any
embedding or vector-store work.  When the embedding stage fails, `ingest_pdf`
re-raises and no entries are added (the collection is merely the
`get_or_create` result), but the DocumentRecord remains persisted with status
`"completed"`. -/
theorem c1_record_persists_on_index_failure (st : RagState)
    (cwd pdfPath : String) (units : List ContentUnit)
    (summarise : String → String) (embed : String → Except Unit (List Int))
    (hembed : mapExcept embed (pdfChunks cwd pdfPath summarise units) =
      Except.error ()) :
    (ingestPdf st cwd pdfPath (Except.ok units) summarise embed).1 =
      Except.error () ∧
    loadPdfMetadata
        (ingestPdf st cwd pdfPath (Except.ok units) summarise embed).2
        (basename (pdfDestOf pdfPath)) =
      some { pdfName := basename (pdfDestOf pdfPath)
             fullPath := pdfDestOf pdfPath
             chunkCount := (pdfChunks cwd pdfPath summarise units).length
             processingStatus := "completed" } ∧
    (ingestPdf st cwd pdfPath (Except.ok units) summarise embed).2.collection =
      some (st.collection.getD []) := by
  refine ⟨?_, ?_, ?_⟩
  · simp [ingestPdf, processPdf, hembed]
  · simp only [ingestPdf, processPdf, hembed]
    simp only [loadPdfMetadata, savePdfMetadata]
    rw [find_filter_append]
    rfl
  · simp [ingestPdf, processPdf, hembed, savePdfMetadata, insertFolder]

theorem c1_record_persists_witness :
    mapExcept (fun _ => (Except.error () : Except Unit (List Int)))
        (pdfChunks "/w" "docs/a.pdf" (fun _ => "s")
          [ContentUnit.mk "NarrativeText" "hello" 1 "" ""]) =
      Except.error () ∧
    ((ingestPdf ⟨some [], [], []⟩ "/w" "docs/a.pdf"
        (Except.ok [ContentUnit.mk "NarrativeText" "hello" 1 "" ""])
        (fun _ => "s") (fun _ => Except.error ())).1 = Except.error () ∧
      loadPdfMetadata
          (ingestPdf ⟨some [], [], []⟩ "/w" "docs/a.pdf"
            (Except.ok [ContentUnit.mk "NarrativeText" "hello" 1 "" ""])
            (fun _ => "s") (fun _ => Except.error ())).2
          (basename (pdfDestOf "docs/a.pdf")) =
        some { pdfName := basename (pdfDestOf "docs/a.pdf")
               fullPath := pdfDestOf "docs/a.pdf"
               chunkCount := (pdfChunks "/w" "docs/a.pdf" (fun _ => "s")
                 [ContentUnit.mk "NarrativeText" "hello" 1 "" ""]).length
               processingStatus := "completed" } ∧
      (ingestPdf ⟨some [], [], []⟩ "/w" "docs/a.pdf"
          (Except.ok [ContentUnit.mk "NarrativeText" "hello" 1 "" ""])
          (fun _ => "s") (fun _ => Except.error ())).2.collection =
        some ((some ([] : List IndexEntry)).getD [])) :=
  ⟨rfl,
   c1_record_persists_on_index_failure ⟨some [], [], []⟩ "/w" "docs/a.pdf"
     [ContentUnit.mk "NarrativeText" "hello" 1 "" ""] (fun _ => "s")
     (fun _ => Except.error ()) rfl⟩

/-- C2: evaluation of the effective `remove_pdf_from_chromadb` (the second
definition in the class body, which shadows the earlier full clean-up
definition) on a state holding two ingested documents.  All index entries
whose `pdf_name` matches `"a.pdf"` are deleted and the other document's entry
is kept — but the persisted DocumentRecord for `"a.pdf"` and its asset folder
remain untouched. -/
theorem c2_remove_effective_behavior :
    removePdfFromChromadb
        ⟨some [IndexEntry.mk "a.pdf_chunk_0" "hello" [] "a.pdf" 1 0,
               IndexEntry.mk "b.pdf_chunk_0" "x" [] "b.pdf" 1 0],
         [("a.pdf", PdfMeta.mk "a.pdf" "uploaded_pdfs/a/a.pdf" 1 "completed")],
         ["uploaded_pdfs/a"]⟩ "a.pdf" =
      Except.ok
        ⟨some [IndexEntry.mk "b.pdf_chunk_0" "x" [] "b.pdf" 1 0],
         [("a.pdf", PdfMeta.mk "a.pdf" "uploaded_pdfs/a/a.pdf" 1 "completed")],
         ["uploaded_pdfs/a"]⟩ := rfl

/-- C8 counterexample: `retrieve_similar_documents` goes through
`get_collection`, which raises when the collection is uninitialized, so
retrieval on an uninitialized collection raises instead of returning the
empty sequence. -/
theorem c8_uninitialized_raises :
    retrieveSimilarDocuments ⟨none, [], []⟩ (fun _ => Except.ok []) "q" 3 =
      Except.error () := rfl

/-- C8 (amended): when the collection exists and the query embedding
succeeds, retrieval returns `min top_k n` documents for an `n`-entry
collection — fewer than `top_k` when the collection holds fewer entries,
the empty sequence when it is empty; but an uninitialized collection makes
`get_collection` raise. -/
theorem c8_retrieve_cardinality (st : RagState) (store : List IndexEntry)
    (embed : String → Except Unit (List Int)) (q : String) (v : List Int)
    (topK : Nat) (hc : st.collection = some store)
    (he : embed q = Except.ok v) :
    retrieveSimilarDocuments st embed q topK =
      Except.ok ((store.take topK).map (fun e => e.document)) ∧
    ((store.take topK).map (fun e => e.document)).length =
      min topK store.length := by
  constructor
  · simp [retrieveSimilarDocuments, hc, he, collectionQuery]
  · simp [List.length_take]

theorem c8_retrieve_cardinality_witness :
    retrieveSimilarDocuments
        ⟨some [IndexEntry.mk "i0" "hello" [] "a.pdf" 1 0], [], []⟩
        (fun _ => Except.ok []) "q" 3 =
      Except.ok (([IndexEntry.mk "i0" "hello" [] "a.pdf" 1 0].take 3).map
        (fun e => e.document)) ∧
    (([IndexEntry.mk "i0" "hello" [] "a.pdf" 1 0].take 3).map
        (fun e => e.document)).length =
      min 3 [IndexEntry.mk "i0" "hello" [] "a.pdf" 1 0].length :=
  c8_retrieve_cardinality
    ⟨some [IndexEntry.mk "i0" "hello" [] "a.pdf" 1 0], [], []⟩
    [IndexEntry.mk "i0" "hello" [] "a.pdf" 1 0]
    (fun _ => Except.ok []) "q" [] 3 rfl rfl

/-- C9 counterexample: with a single retrieved chunk `"alpha"`, the prompt
submitted by `invoke` embeds the Python string representation of the
retrieved *list* — `"['alpha']"` — under "Context:", not the chunk string
itself (for one chunk, any joining of the chunk strings is just `"alpha"`,
and the prompt built from it differs). -/
theorem c9_prompt_counterexample :
    invokePrompt ⟨some [IndexEntry.mk "i0" "alpha" [] "a.pdf" 1 0], [], []⟩
        (fun _ => Except.ok []) "q" =
      Except.ok (promptBuilder (pyStrOfList ["alpha"]) "q") ∧
    pyStrOfList ["alpha"] = "['alpha']" ∧
    promptBuilder "['alpha']" "q" ≠ promptBuilder "alpha" "q" := by
  refine ⟨rfl, rfl, ?_⟩
  decide

/-- C9 (amended): the prompt submitted to the generation service embeds,
under "Context:", the Python string representation of the retrieved chunk
list — square brackets, each chunk quoted, separated by commas — together
with the raw question (the retrieved list is interpolated into the f-string
without joining). -/
theorem c9_prompt_embeds_list_repr (st : RagState) (store : List IndexEntry)
    (embed : String → Except Unit (List Int)) (q : String) (v : List Int)
    (hc : st.collection = some store) (he : embed q = Except.ok v) :
    invokePrompt st embed q =
      Except.ok (promptBuilder
        (pyStrOfList ((store.take 3).map (fun e => e.document))) q) := by
  simp [invokePrompt, retrieveSimilarDocuments, hc, he, collectionQuery]

theorem c9_prompt_embeds_list_repr_witness :
    invokePrompt ⟨some [IndexEntry.mk "i0" "alpha" [] "a.pdf" 1 0], [], []⟩
        (fun _ => Except.ok []) "q" =
      Except.ok (promptBuilder
        (pyStrOfList (([IndexEntry.mk "i0" "alpha" [] "a.pdf" 1 0].take 3).map
          (fun e => e.document))) "q") :=
  c9_prompt_embeds_list_repr
    ⟨some [IndexEntry.mk "i0" "alpha" [] "a.pdf" 1 0], [], []⟩
    [IndexEntry.mk "i0" "alpha" [] "a.pdf" 1 0]
    (fun _ => Except.ok []) "q" [] rfl rfl

end MultimodalRag
